import Mathlib

/-!
Verification of the visa-requirements lookup tool: a shallow embedding of
`visa_requirements.py` (data tables and `get_requirements`) and of the
client-side requirement computation of `web_app.py` (`showRequirements`),
together with proofs of the specified properties.

Python dicts are embedded as association lists with pairwise distinct keys
(Python dict-literal semantics), `Optional[str]` as `Option String`, and a
raised `ValueError` as `Except.error` carrying the message.
-/

/-- One scenario of the rules table: a label and its required documents
(the `Scenario` dataclass of visa_requirements.py). -/
structure Scenario where
  label : String
  requirements : List String
deriving DecidableEq

/-- Lookup in an association list, mirroring Python dict key lookup
(`d[k]` / `d.get(k)`); the tables below have pairwise distinct keys, so the
first match is the only one. -/
def dictGet? {α : Type} (d : List (String × α)) (k : String) : Option α :=
  (d.find? (fun p => p.1 == k)).map (fun p => p.2)

/-- The keys of an association list (Python `dict` keys, in insertion order). -/
def dictKeys {α : Type} (d : List (String × α)) : List String :=
  d.map (fun p => p.1)

/-- `COMMON_REQUIREMENTS` of visa_requirements.py (lines 15-21). -/
def COMMON_REQUIREMENTS : List String :=
  [ "在留期間更新許可申請書（申請人等作成用の3枚 + 所属機関等作成用の2枚）"
  , "提出書類一覧表、各在学証明書（両方提出必須。2025年1月申請分から提出が必須）"
  , "成績証明書、在学証明書等（証明書のコピーはマスキングせずに提出）"
  , "パスポート、在留カード（原本を持参・提示してください）"
  , "6,000円分の収入印紙" ]

/-- `STATUS_RULES` of visa_requirements.py (lines 30-99). -/
def STATUS_RULES : List (String × List Scenario) :=
  [ ( "正規生"
    , [ { label := "現学年・前学期在籍"
        , requirements :=
            [ "外国人登録証明書（原本）"
            , "成績証明書（前年度または前学期のもの）"
            , "在学証明書（在籍期間の記載があるもの）" ] }
      , { label := "前学期未履修（未受験）"
        , requirements :=
            [ "外国人登録証明書（原本）"
            , "経費支弁証明書（次のいずれか: 送金証明書／預金残高証明書／授業料免除許可書／奨学金受給証明書〈日本語訳付き〉）" ] }
      , { label := "途中退学（日本語学校から転校）"
        , requirements :=
            [ "外国人登録証明書（原本）"
            , "退学証明書（日本語学校からのもの）"
            , "在籍証明書（元学校。期間の記載があるもの）"
            , "大学進学予定証明書（在学予定校）" ] } ] )
  , ( "研究生"
    , [ { label := "前学期も研究生として在籍"
        , requirements :=
            [ "外国人登録証明書（原本または在留カードの両面コピー。所属学部等の支援室で発行）"
            , "前学期の成績証明書（所属の支援室で発行）" ] }
      , { label := "前学期に日本語学校へ在籍"
        , requirements :=
            [ "外国人登録証明書（原本）"
            , "日本語学校の在学証明書・成績証明書・出席／在籍証明書（日本語学校で発行）" ] }
      , { label := "前学期に3科目以上を履修（10単位程度）"
        , requirements :=
            [ "外国人登録証明書（原本）"
            , "成績証明書（所属の支援室で発行）"
            , "在学証明書（所属学部の支援室で発行）"
            , "聴講・科目等履修に関する証明書（授業担当者の署名が入ったもの）" ] } ] )
  , ( "特別聴講学生"
    , [ { label := "大学院等へ進学予定（合格済）"
        , requirements :=
            [ "合格通知書のコピーを提出してください"
            , "前学期に履修がない場合: 経費支弁証明書（送金証明書など）" ] }
      , { label := "前学期に履修あり"
        , requirements :=
            [ "外国人登録証明書（原本）"
            , "成績証明書（前学期のもの）"
            , "在学証明書（所属の支援室で発行）" ] } ] ) ]

/-- `STATUS_OPTIONAL_RULES` of visa_requirements.py (lines 102-112). -/
def STATUS_OPTIONAL_RULES : List (String × List Scenario) :=
  [ ( "正規生"
    , [ { label := "標準修業年限を超えて研究する", requirements := ["RULE"] }
      , { label := "これから進学予定", requirements := ["RULE"] } ] )
  , ( "研究生"
    , [ { label := "1年以上研究生を続けている", requirements := ["RULE"] }
      , { label := "大学院進学予定", requirements := ["RULE"] }
      , { label := "研究継続予定", requirements := ["RULE"] } ] ) ]

/-- `SCENARIO_OPTIONAL_RULES` of visa_requirements.py (lines 115-121). -/
def SCENARIO_OPTIONAL_RULES : List (String × List (String × List Scenario)) :=
  [ ( "研究生"
    , [ ( "前学期に3科目以上を履修（10単位程度）"
        , [ { label := "これから研究生になる方", requirements := ["RULE"] } ] ) ] ) ]

/-- `SCHOLARSHIP_RULES` of visa_requirements.py (lines 124-139). -/
def SCHOLARSHIP_RULES : List (String × List String) :=
  [ ( "国費留学生"
    , [ "日本政府奨学金受給証明書（留学交流グループで発行）" ] )
  , ( "日本政府以外の奨学金受給学生"
    , [ "奨学金受給証明書（原本。奨学金支援センターなどで発行）" ] )
  , ( "予約採用奨学金（決定済み）"
    , [ "自費外国人留学生申請者: 申請用紙（奨学金支援センターで配布）"
      , "推薦者記入用: 外国人留学生奨学金受給予定証明書（授業担当教員記入）" ] )
  , ( "予約採用奨学金（未決定・受給予定なし）"
    , [ "予約採用内定奨学金がない場合は提出不要です" ] )
  , ( "奨学金なし", [] ) ]

/-- Python `sep.join(xs)`. -/
def strJoin (sep : String) : List String → String
  | [] => ""
  | [s] => s
  | s :: rest => s ++ sep ++ strJoin sep rest

/-- The message of the `ValueError` raised for an unknown status
(visa_requirements.py line 153). -/
def unknownStatusMsg (status : String) : String :=
  "未対応の身分です: " ++ status

/-- The message of the `ValueError` raised for an unknown scenario label
(visa_requirements.py lines 160-161): it names the offending label and the
comma-joined list of valid labels for the status. -/
def unknownScenarioMsg (scenario_label : String) (scenarios : List Scenario) : String :=
  "シナリオが一致しません: " ++ scenario_label ++ "。候補: "
    ++ strJoin ", " (scenarios.map Scenario.label)

/-- The soft-fail placeholder appended for a scholarship key that is not in
`SCHOLARSHIP_RULES` (visa_requirements.py line 167). -/
def scholarshipPlaceholder (s : String) : String :=
  "奨学金区分 '" ++ s ++ "' は登録されていません。"

/-- `get_requirements` of visa_requirements.py (lines 151-171).
`raise ValueError` becomes `Except.error`; the Python truthiness test
`if scholarship:` is false exactly for `None` and for the empty string. -/
def get_requirements (status : String) (scenario_label : String)
    (scholarship : Option String) : Except String (List String) :=
  match dictGet? STATUS_RULES status with
  | none => Except.error (unknownStatusMsg status)
  | some scenarios =>
    match scenarios.find? (fun sc => sc.label == scenario_label) with
    | none => Except.error (unknownScenarioMsg scenario_label scenarios)
    | some scenario =>
      let requirements := COMMON_REQUIREMENTS ++ scenario.requirements
      match scholarship with
      | none => Except.ok requirements
      | some s =>
        if s == "" then Except.ok requirements
        else
          Except.ok (requirements ++
            ((dictGet? SCHOLARSHIP_RULES s).getD [scholarshipPlaceholder s]))

/-- The module-level rule tables read by `get_requirements`, bundled as an
explicit state so that (absence of) mutation can be stated. -/
structure Tables where
  common : List String
  statusRules : List (String × List Scenario)
  scholarshipRules : List (String × List String)
deriving DecidableEq

/-- The tables as initialised at import time of visa_requirements.py. -/
def initTables : Tables :=
  { common := COMMON_REQUIREMENTS
  , statusRules := STATUS_RULES
  , scholarshipRules := SCHOLARSHIP_RULES }

/-- `get_requirements` as a state-passing function over the module tables:
each step reads the current tables and the final state is returned alongside
the result, so that the theorem that no call mutates any table is statable. -/
def getRequirementsSt (t : Tables) (status : String) (scenario_label : String)
    (scholarship : Option String) : Except String (List String) × Tables :=
  match dictGet? t.statusRules status with
  | none => (Except.error (unknownStatusMsg status), t)
  | some scenarios =>
    match scenarios.find? (fun sc => sc.label == scenario_label) with
    | none => (Except.error (unknownScenarioMsg scenario_label scenarios), t)
    | some scenario =>
      let requirements := t.common ++ scenario.requirements
      match scholarship with
      | none => (Except.ok requirements, t)
      | some s =>
        if s == "" then (Except.ok requirements, t)
        else
          (Except.ok (requirements ++
            ((dictGet? t.scholarshipRules s).getD [scholarshipPlaceholder s])), t)

/-- One checked optional checkbox of the web page: the option's label and
its requirement strings (`getSelectedOptionalSelections` of web_app.py). -/
structure OptionalSelection where
  label : String
  requirements : List String
deriving DecidableEq

/-- `nonGovScholarships` of web_app.py (lines 145-148). -/
def nonGovScholarships : List String :=
  [ "日本政府以外の給付型の奨学金受給学生"
  , "日本政府以外の貸与型の奨学金受給学生" ]

/-- The requirement-list computation of `showRequirements` in web_app.py
(lines 346-382).  `statusData` is the payload `build_status_payload` derives
from `STATUS_RULES` (labels and requirements unchanged), so it is embedded as
`STATUS_RULES` itself.  `scholarshipStatusData` is passed as a parameter: the
table `SCHOLARSHIP_STATUS_RULES` it is rendered from is imported by
web_app.py but defined nowhere in the repository.  JavaScript `x || []`
on a dict lookup becomes `Option.getD _ []`, and string truthiness is the
test against `""`. -/
def showRequirements (scholarshipStatusData : List (String × List String))
    (status : String) (selectedScenarios : List String)
    (optionalSelections : List OptionalSelection)
    (scholarship : String) (scholarshipStatusSel : String) : List String :=
  let scholarshipStatus :=
    if nonGovScholarships.contains scholarship then scholarshipStatusSel else ""
  if status == "" || selectedScenarios.isEmpty then []
  else
    let scenarios := (dictGet? STATUS_RULES status).getD []
    let scenarioRequirements := selectedScenarios.flatMap (fun label =>
      match scenarios.find? (fun item => item.label == label) with
      | some scenario => scenario.requirements
      | none => [])
    let optionalRequirements :=
      optionalSelections.flatMap (fun sel => sel.requirements)
    COMMON_REQUIREMENTS ++ scenarioRequirements ++ optionalRequirements
      ++ (if scholarship == "" then []
          else (dictGet? SCHOLARSHIP_RULES scholarship).getD [])
      ++ (if scholarshipStatus == "" then []
          else (dictGet? scholarshipStatusData scholarshipStatus).getD [])

/-- Modelled from the spec: web_app.py imports `SCHOLARSHIP_STATUS_RULES`
(the spec's `scholarshipStatus: map(scholarshipStatusKey → ordered list of
string)` of the RuleStore) from visa_requirements.py, but no file of the
repository defines it.  The spec gives its shape and its soft-fail use but
no entries, so it is modelled as the empty table; every general theorem
about `showRequirements` quantifies over an arbitrary table in its place. -/
def SCHOLARSHIP_STATUS_RULES : List (String × List String) := []

/-- `s` contains `sub` as a substring. -/
def strContains (s sub : String) : Prop :=
  sub.data <:+: s.data

/-- Every requirement string occurring in `COMMON_REQUIREMENTS` or in some
scenario of `STATUS_RULES`. -/
def allFixedRequirementStrings : List String :=
  COMMON_REQUIREMENTS ++
    STATUS_RULES.flatMap (fun p => p.2.flatMap (fun sc => sc.requirements))

theorem infix_append_left {α : Type} {l r : List α} (m : List α)
    (h : l <:+: r) : l <:+: m ++ r := by
  obtain ⟨u, v, huv⟩ := h
  exact ⟨m ++ u, v, by rw [← huv]; simp [List.append_assoc]⟩

theorem mem_strJoin_infix (sep : String) :
    ∀ (xs : List String) (x : String), x ∈ xs → x.data <:+: (strJoin sep xs).data
  | [], x, hx => absurd hx (List.not_mem_nil x)
  | [a], x, hx => by
      have hxa : x = a := by simpa using hx
      subst hxa
      exact ⟨[], [], by simp [strJoin]⟩
  | a :: b :: t, x, hx => by
      have hj : strJoin sep (a :: b :: t) = a ++ sep ++ strJoin sep (b :: t) := rfl
      rcases List.mem_cons.mp hx with h | h
      · subst h
        refine ⟨[], sep.data ++ (strJoin sep (b :: t)).data, ?_⟩
        simp [hj, String.data_append, List.append_assoc]
      · have ih := mem_strJoin_infix sep (b :: t) x h
        have : x.data <:+: (a ++ sep).data ++ (strJoin sep (b :: t)).data :=
          infix_append_left _ ih
        simpa [hj, String.data_append, List.append_assoc] using this

theorem unknownScenarioMsg_contains (scenario_label : String)
    (scenarios : List Scenario) (l : String)
    (hl : l ∈ scenarios.map Scenario.label) :
    strContains (unknownScenarioMsg scenario_label scenarios) l := by
  have h := mem_strJoin_infix ", " (scenarios.map Scenario.label) l hl
  have h2 : l.data <:+:
      ("シナリオが一致しません: " ++ scenario_label ++ "。候補: ").data
        ++ (strJoin ", " (scenarios.map Scenario.label)).data :=
    infix_append_left _ h
  simpa [strContains, unknownScenarioMsg, String.data_append,
    List.append_assoc] using h2

theorem dictGet?_eq_none_of_not_mem {α : Type} (d : List (String × α))
    (k : String) (h : k ∉ dictKeys d) : dictGet? d k = none := by
  unfold dictGet?
  rw [List.find?_eq_none.mpr]
  · rfl
  · intro p hp hpk
    exact h (List.mem_map.mpr ⟨p, hp, by simpa using hpk⟩)

/-- C1: for every status that is a key of STATUS_RULES and every label of one
of its scenarios, `get_requirements status label None` succeeds and its
result starts with exactly `COMMON_REQUIREMENTS`, in order. -/
theorem C1_result_starts_with_common (status scenario_label : String)
    (scenarios : List Scenario)
    (hs : dictGet? STATUS_RULES status = some scenarios)
    (hl : scenario_label ∈ scenarios.map Scenario.label) :
    ∃ r, get_requirements status scenario_label none = Except.ok r ∧
      COMMON_REQUIREMENTS <+: r := by
  obtain ⟨sc, hmem, hlab⟩ := List.mem_map.mp hl
  have hfind : (scenarios.find? (fun sc => sc.label == scenario_label)).isSome := by
    rw [List.find?_isSome]
    exact ⟨sc, hmem, by simp [hlab]⟩
  obtain ⟨sc2, hsc2⟩ := Option.isSome_iff_exists.mp hfind
  refine ⟨COMMON_REQUIREMENTS ++ sc2.requirements, ?_, ⟨sc2.requirements, rfl⟩⟩
  unfold get_requirements
  simp only [hs, hsc2]

theorem C1_witness :
    ∃ r, get_requirements "正規生" "現学年・前学期在籍" none = Except.ok r ∧
      COMMON_REQUIREMENTS <+: r :=
  C1_result_starts_with_common "正規生" "現学年・前学期在籍"
    ((dictGet? STATUS_RULES "正規生").getD []) (by decide) (by decide)

/-- C2: for every status that is not a key of STATUS_RULES, `get_requirements`
raises the unknown-status ValueError, whatever the scenario label and
scholarship arguments are. -/
theorem C2_unknown_status (status : String)
    (h : status ∉ dictKeys STATUS_RULES) :
    ∀ (scenario_label : String) (scholarship : Option String),
      get_requirements status scenario_label scholarship =
        Except.error (unknownStatusMsg status) := by
  intro scenario_label scholarship
  unfold get_requirements
  rw [dictGet?_eq_none_of_not_mem STATUS_RULES status h]

theorem C2_witness :
    get_requirements "学部生" "現学年・前学期在籍" (some "国費留学生") =
      Except.error (unknownStatusMsg "学部生") :=
  C2_unknown_status "学部生" (by decide) "現学年・前学期在籍" (some "国費留学生")

/-- C3: for a status that is a key of STATUS_RULES and a scenario label that
matches none of its scenarios, `get_requirements` raises the unknown-scenario
ValueError, whose message contains every valid label for that status. -/
theorem C3_unknown_scenario_lists_labels (status scenario_label : String)
    (scholarship : Option String) (scenarios : List Scenario)
    (hs : dictGet? STATUS_RULES status = some scenarios)
    (hl : scenario_label ∉ scenarios.map Scenario.label) :
    get_requirements status scenario_label scholarship =
      Except.error (unknownScenarioMsg scenario_label scenarios) ∧
    ∀ l ∈ scenarios.map Scenario.label,
      strContains (unknownScenarioMsg scenario_label scenarios) l := by
  constructor
  · have hfind : scenarios.find? (fun sc => sc.label == scenario_label) = none := by
      rw [List.find?_eq_none]
      intro sc hmem hbeq
      exact hl (List.mem_map.mpr ⟨sc, hmem, by simpa using hbeq⟩)
    unfold get_requirements
    simp only [hs, hfind]
  · intro l hmem
    exact unknownScenarioMsg_contains scenario_label scenarios l hmem

theorem C3_witness :
    get_requirements "特別聴講学生" "該当なし" none =
      Except.error (unknownScenarioMsg "該当なし"
        ((dictGet? STATUS_RULES "特別聴講学生").getD [])) ∧
    strContains (unknownScenarioMsg "該当なし"
      ((dictGet? STATUS_RULES "特別聴講学生").getD [])) "前学期に履修あり" :=
  ⟨(C3_unknown_scenario_lists_labels "特別聴講学生" "該当なし" none
      ((dictGet? STATUS_RULES "特別聴講学生").getD []) (by decide) (by decide)).1,
   (C3_unknown_scenario_lists_labels "特別聴講学生" "該当なし" none
      ((dictGet? STATUS_RULES "特別聴講学生").getD []) (by decide) (by decide)).2
     "前学期に履修あり" (by decide)⟩

theorem fixed_take7_ne :
    ∀ q ∈ allFixedRequirementStrings, q.data.take 7 ≠ "奨学金区分 '".data := by
  decide

theorem fixed_ne_placeholder (q : String)
    (hq : q ∈ allFixedRequirementStrings) (s : String) :
    q ≠ scholarshipPlaceholder s := by
  intro hEq
  have hdata : q.data = "奨学金区分 '".data
      ++ (s.data ++ ("' は登録されていません。").data) := by
    rw [hEq]
    simp [scholarshipPlaceholder, String.data_append, List.append_assoc]
  have hlen : ("奨学金区分 '".data).length = 7 := by decide
  have h7 : q.data.take 7 = "奨学金区分 '".data := by
    rw [hdata, ← hlen]
    exact List.take_left _ _
  exact fixed_take7_ne q hq h7

theorem dictGet?_some_mem {α : Type} (d : List (String × α)) (k : String)
    (v : α) (h : dictGet? d k = some v) : (k, v) ∈ d := by
  unfold dictGet? at h
  rcases hf : d.find? (fun p => p.1 == k) with _ | p
  · rw [hf] at h; simp at h
  · rw [hf] at h
    have hv : p.2 = v := by simpa using h
    have hmem := List.mem_of_find?_eq_some hf
    have hpk : p.1 = k := by simpa using List.find?_some hf
    have hp : p = (k, v) := by
      cases p
      simp_all
    rw [← hp]
    exact hmem

theorem scenario_req_mem_fixed (status : String) (scenarios : List Scenario)
    (sc : Scenario) (hs : dictGet? STATUS_RULES status = some scenarios)
    (hmem : sc ∈ scenarios) :
    ∀ q ∈ COMMON_REQUIREMENTS ++ sc.requirements,
      q ∈ allFixedRequirementStrings := by
  intro q hq
  rcases List.mem_append.mp hq with h | h
  · exact List.mem_append.mpr (Or.inl h)
  · refine List.mem_append.mpr (Or.inr ?_)
    exact List.mem_flatMap.mpr
      ⟨(status, scenarios), dictGet?_some_mem STATUS_RULES status scenarios hs,
        List.mem_flatMap.mpr ⟨sc, hmem, h⟩⟩

/-- C4 fails as stated: the empty string is a non-null scholarship argument
that is not a key of SCHOLARSHIP_RULES, yet `get_requirements` appends no
placeholder for it (Python `if scholarship:` is false for `""`). -/
theorem C4_counterexample :
    get_requirements "正規生" "現学年・前学期在籍" (some "") =
      Except.ok (COMMON_REQUIREMENTS ++
        [ "外国人登録証明書（原本）"
        , "成績証明書（前年度または前学期のもの）"
        , "在学証明書（在籍期間の記載があるもの）" ]) ∧
    (COMMON_REQUIREMENTS ++
        [ "外国人登録証明書（原本）"
        , "成績証明書（前年度または前学期のもの）"
        , "在学証明書（在籍期間の記載があるもの）" ]).count
      (scholarshipPlaceholder "") = 0 :=
  ⟨rfl, by decide⟩

/-- C4 as amended: for a valid selection and a NON-EMPTY scholarship key,
an unknown key yields the base result plus exactly one placeholder naming
the key, and a known key yields the base result plus exactly that key's
requirement list. -/
theorem C4_scholarship_soft_fail (status scenario_label s : String)
    (r0 : List String)
    (h0 : get_requirements status scenario_label none = Except.ok r0)
    (hne : s ≠ "") :
    (s ∉ dictKeys SCHOLARSHIP_RULES →
      get_requirements status scenario_label (some s) =
        Except.ok (r0 ++ [scholarshipPlaceholder s]) ∧
      (r0 ++ [scholarshipPlaceholder s]).count (scholarshipPlaceholder s) = 1) ∧
    (∀ v, dictGet? SCHOLARSHIP_RULES s = some v →
      get_requirements status scenario_label (some s) = Except.ok (r0 ++ v)) := by
  unfold get_requirements at h0 ⊢
  rcases h1 : dictGet? STATUS_RULES status with _ | scenarios
  · rw [h1] at h0
    exact absurd h0 (by simp)
  · rw [h1] at h0
    simp only at h0 ⊢
    rcases h2 : scenarios.find? (fun sc => sc.label == scenario_label) with _ | sc
    · rw [h2] at h0
      exact absurd h0 (by simp)
    · rw [h2] at h0
      have hr0 : r0 = COMMON_REQUIREMENTS ++ sc.requirements := by
        simpa using h0.symm
      have hsne : (s == "") = false := by
        simpa using hne
      constructor
      · intro hnk
        have hnone : dictGet? SCHOLARSHIP_RULES s = none :=
          dictGet?_eq_none_of_not_mem SCHOLARSHIP_RULES s hnk
        constructor
        · simp only [h2, hsne, hnone, hr0]
          rfl
        · rw [List.count_append]
          have hz : r0.count (scholarshipPlaceholder s) = 0 := by
            rw [List.count_eq_zero]
            intro hmem
            have hfix : scholarshipPlaceholder s ∈ allFixedRequirementStrings :=
              scenario_req_mem_fixed status scenarios sc h1
                (List.mem_of_find?_eq_some h2) _ (hr0 ▸ hmem)
            exact fixed_ne_placeholder _ hfix s rfl
          rw [hz]
          simp
      · intro v hv
        simp only [h2, hsne, hv, hr0]
        rfl

theorem C4_witness :
    get_requirements "正規生" "現学年・前学期在籍" (some "未登録の区分") =
      Except.ok ((COMMON_REQUIREMENTS ++
        [ "外国人登録証明書（原本）"
        , "成績証明書（前年度または前学期のもの）"
        , "在学証明書（在籍期間の記載があるもの）" ]) ++
          [scholarshipPlaceholder "未登録の区分"]) ∧
    ((COMMON_REQUIREMENTS ++
        [ "外国人登録証明書（原本）"
        , "成績証明書（前年度または前学期のもの）"
        , "在学証明書（在籍期間の記載があるもの）" ]) ++
          [scholarshipPlaceholder "未登録の区分"]).count
      (scholarshipPlaceholder "未登録の区分") = 1 :=
  (C4_scholarship_soft_fail "正規生" "現学年・前学期在籍" "未登録の区分"
      (COMMON_REQUIREMENTS ++
        [ "外国人登録証明書（原本）"
        , "成績証明書（前年度または前学期のもの）"
        , "在学証明書（在籍期間の記載があるもの）" ])
      rfl (by decide)).1 (by decide)

/-- C5 fails as stated: in the web page's requirement computation an
unknown scholarship key contributes nothing at all (JavaScript
`scholarshipData[scholarship] || []`), so no placeholder naming the key
appears in the result. -/
theorem C5_counterexample :
    showRequirements SCHOLARSHIP_STATUS_RULES "正規生" ["現学年・前学期在籍"] [] "未登録の奨学金" "" =
      COMMON_REQUIREMENTS ++
        [ "外国人登録証明書（原本）"
        , "成績証明書（前年度または前学期のもの）"
        , "在学証明書（在籍期間の記載があるもの）" ] ∧
    (showRequirements SCHOLARSHIP_STATUS_RULES "正規生" ["現学年・前学期在籍"] [] "未登録の奨学金" "").count
      (scholarshipPlaceholder "未登録の奨学金") = 0 :=
  ⟨by decide, by decide⟩

/-- C5 as amended: the CLI resolver takes only (status, scenario_label,
scholarship); the web computation takes the four selections plus optional
items, contributes the empty list (never a placeholder) for unknown or empty
scholarship / scholarship-status keys, and agrees with `get_requirements`
when a single valid scenario, no optional item, a scholarship key present in
`SCHOLARSHIP_RULES` and no scholarship-status are selected — for any
scholarship-status table. -/
theorem C5_web_refines_resolver (scholarshipStatusData : List (String × List String))
    (status scenario_label k : String) (r : List String)
    (hk : k ∈ dictKeys SCHOLARSHIP_RULES)
    (h : get_requirements status scenario_label (some k) = Except.ok r) :
    showRequirements scholarshipStatusData status [scenario_label] [] k "" = r := by
  have hkne : (k == "") = false := by
    rcases hkk : (k == "") with _ | _
    · rfl
    · exfalso
      have : k = "" := by simpa using hkk
      subst this
      exact absurd hk (by decide)
  unfold get_requirements at h
  rcases h1 : dictGet? STATUS_RULES status with _ | scenarios
  · rw [h1] at h
    exact absurd h (by simp)
  · rw [h1] at h
    simp only at h
    rcases h2 : scenarios.find? (fun sc => sc.label == scenario_label) with _ | sc
    · rw [h2] at h
      exact absurd h (by simp)
    · rw [h2] at h
      rw [hkne] at h
      simp only [Bool.false_eq_true, if_false] at h
      have hstatus : (status == "") = false := by
        rcases hss : (status == "") with _ | _
        · rfl
        · exfalso
          have : status = "" := by simpa using hss
          subst this
          have hn : dictGet? STATUS_RULES "" = none := rfl
          rw [hn] at h1
          exact absurd h1 (by simp)
      have hr : COMMON_REQUIREMENTS ++ sc.requirements ++
          (dictGet? SCHOLARSHIP_RULES k).getD [scholarshipPlaceholder k] = r := by
        simpa using h
      obtain ⟨p, hp, hpk⟩ := List.mem_map.mp hk
      have hsome : (List.find? (fun p => p.1 == k) SCHOLARSHIP_RULES).isSome := by
        rw [List.find?_isSome]
        exact ⟨p, hp, by simpa using hpk⟩
      obtain ⟨q, hq⟩ := Option.isSome_iff_exists.mp hsome
      have hv : dictGet? SCHOLARSHIP_RULES k = some q.2 := by
        unfold dictGet?
        rw [hq]
        rfl
      unfold showRequirements
      rw [hstatus]
      simp only [List.isEmpty_cons, Bool.false_eq_true, if_false, Bool.or_self,
        h1, Option.getD_some, hv, hkne]
      rw [← hr, hv]
      simp [h2]

theorem C5_witness :
    showRequirements SCHOLARSHIP_STATUS_RULES "正規生" ["現学年・前学期在籍"] [] "国費留学生" "" =
      COMMON_REQUIREMENTS ++
        [ "外国人登録証明書（原本）"
        , "成績証明書（前年度または前学期のもの）"
        , "在学証明書（在籍期間の記載があるもの）" ] ++
        ["日本政府奨学金受給証明書（留学交流グループで発行）"] :=
  C5_web_refines_resolver SCHOLARSHIP_STATUS_RULES "正規生" "現学年・前学期在籍" "国費留学生"
    (COMMON_REQUIREMENTS ++
      [ "外国人登録証明書（原本）"
      , "成績証明書（前年度または前学期のもの）"
      , "在学証明書（在籍期間の記載があるもの）" ] ++
      ["日本政府奨学金受給証明書（留学交流グループで発行）"])
    (by decide) rfl

theorem getRequirementsSt_snd (t : Tables) (status scenario_label : String)
    (scholarship : Option String) :
    (getRequirementsSt t status scenario_label scholarship).2 = t := by
  unfold getRequirementsSt
  rcases h1 : dictGet? t.statusRules status with _ | scenarios
  · simp only [h1]
  · simp only [h1]
    rcases h2 : scenarios.find? (fun sc => sc.label == scenario_label) with _ | sc
    · simp only [h2]
    · simp only [h2]
      rcases scholarship with _ | s
      · rfl
      · rcases hss : (s == "") with _ | _ <;> simp [hss]

theorem getRequirementsSt_fst (status scenario_label : String)
    (scholarship : Option String) :
    (getRequirementsSt initTables status scenario_label scholarship).1 =
      get_requirements status scenario_label scholarship := by
  have hst : initTables.statusRules = STATUS_RULES := rfl
  have hc : initTables.common = COMMON_REQUIREMENTS := rfl
  have hsch : initTables.scholarshipRules = SCHOLARSHIP_RULES := rfl
  unfold getRequirementsSt get_requirements
  simp only [hst, hc, hsch]
  rcases h1 : dictGet? STATUS_RULES status with _ | scenarios
  · simp only [h1]
  · simp only [h1]
    rcases h2 : scenarios.find? (fun sc => sc.label == scenario_label) with _ | sc
    · simp only [h2]
    · simp only [h2]
      rcases scholarship with _ | s
      · rfl
      · rcases hss : (s == "") with _ | _ <;> simp [hss]

/-- C6: `get_requirements` is deterministic and pure.  In the state-passing
embedding of its module tables, a call leaves the tables exactly as
initialised, a second call with the same arguments on the resulting state
returns the identical result, and the result is that of the pure function. -/
theorem C6_pure_and_idempotent (status scenario_label : String)
    (scholarship : Option String) :
    (getRequirementsSt initTables status scenario_label scholarship).2 =
      initTables ∧
    (getRequirementsSt
        ((getRequirementsSt initTables status scenario_label scholarship).2)
        status scenario_label scholarship).1 =
      (getRequirementsSt initTables status scenario_label scholarship).1 ∧
    (getRequirementsSt initTables status scenario_label scholarship).1 =
      get_requirements status scenario_label scholarship := by
  refine ⟨getRequirementsSt_snd _ _ _ _, ?_, getRequirementsSt_fst _ _ _⟩
  rw [getRequirementsSt_snd]

/-- C7 fails as stated: the label "前学期も同じ身分で正規生として在籍" is not
among the 正規生 scenarios (the call raises the unknown-scenario ValueError
instead of returning a list), and the common-requirements list has 5 items,
not 4. -/
theorem C7_counterexample :
    get_requirements "正規生" "前学期も同じ身分で正規生として在籍" none =
      Except.error (unknownScenarioMsg "前学期も同じ身分で正規生として在籍"
        ((dictGet? STATUS_RULES "正規生").getD [])) ∧
    COMMON_REQUIREMENTS.length = 5 :=
  ⟨rfl, by decide⟩

/-- C7 as amended: the cited label raises the unknown-scenario error; for the
existing 正規生 scenario "現学年・前学期在籍", `get_requirements` returns the
5 common requirements followed by exactly the 3 scenario-specific items,
8 items in total, in table order. -/
theorem C7_regular_student_example :
    get_requirements "正規生" "前学期も同じ身分で正規生として在籍" none =
      Except.error (unknownScenarioMsg "前学期も同じ身分で正規生として在籍"
        ((dictGet? STATUS_RULES "正規生").getD [])) ∧
    get_requirements "正規生" "現学年・前学期在籍" none =
      Except.ok (COMMON_REQUIREMENTS ++
        [ "外国人登録証明書（原本）"
        , "成績証明書（前年度または前学期のもの）"
        , "在学証明書（在籍期間の記載があるもの）" ]) ∧
    COMMON_REQUIREMENTS.length = 5 ∧
    (COMMON_REQUIREMENTS ++
        [ "外国人登録証明書（原本）"
        , "成績証明書（前年度または前学期のもの）"
        , "在学証明書（在籍期間の記載があるもの）" ]).length = 8 :=
  ⟨rfl, rfl, by decide, by decide⟩

/-- C8 fails as stated: the 研究生 status has exactly 3 scenarios, not 5, so
no message can list "the 5 known research-student scenario labels". -/
theorem C8_counterexample :
    (((dictGet? STATUS_RULES "研究生").getD []).map Scenario.label).length = 3 ∧
    ¬ (((dictGet? STATUS_RULES "研究生").getD []).map Scenario.label).length = 5 ∧
    get_requirements "研究生" "nonexistent" none =
      Except.error (unknownScenarioMsg "nonexistent"
        ((dictGet? STATUS_RULES "研究生").getD [])) :=
  ⟨by decide, by decide, rfl⟩

/-- C8 as amended: `get_requirements("研究生", "nonexistent", None)` raises
the unknown-scenario ValueError whose message contains every one of the 3
known research-student scenario labels. -/
theorem C8_research_student_error_example :
    get_requirements "研究生" "nonexistent" none =
      Except.error (unknownScenarioMsg "nonexistent"
        ((dictGet? STATUS_RULES "研究生").getD [])) ∧
    (((dictGet? STATUS_RULES "研究生").getD []).map Scenario.label).length = 3 ∧
    strContains (unknownScenarioMsg "nonexistent"
      ((dictGet? STATUS_RULES "研究生").getD [])) "前学期も研究生として在籍" ∧
    strContains (unknownScenarioMsg "nonexistent"
      ((dictGet? STATUS_RULES "研究生").getD [])) "前学期に日本語学校へ在籍" ∧
    strContains (unknownScenarioMsg "nonexistent"
      ((dictGet? STATUS_RULES "研究生").getD [])) "前学期に3科目以上を履修（10単位程度）" :=
  ⟨rfl, by decide,
   unknownScenarioMsg_contains _ _ _ (by decide),
   unknownScenarioMsg_contains _ _ _ (by decide),
   unknownScenarioMsg_contains _ _ _ (by decide)⟩

/-- C9: in the static data, scenario labels are unique within each status,
and every scenario-label key of SCENARIO_OPTIONAL_RULES exists as a label of
a scenario of the same status in STATUS_RULES. -/
theorem C9_data_invariants :
    (∀ p ∈ STATUS_RULES, (p.2.map Scenario.label).Nodup) ∧
    (∀ p ∈ SCENARIO_OPTIONAL_RULES, ∀ q ∈ p.2,
      (dictGet? STATUS_RULES p.1).isSome = true ∧
      q.1 ∈ ((dictGet? STATUS_RULES p.1).getD []).map Scenario.label) := by
  decide

theorem C9_witness :
    (((dictGet? STATUS_RULES "正規生").getD []).map Scenario.label).Nodup ∧
    "前学期に3科目以上を履修（10単位程度）" ∈
      ((dictGet? STATUS_RULES "研究生").getD []).map Scenario.label :=
  ⟨C9_data_invariants.1 ("正規生", (dictGet? STATUS_RULES "正規生").getD [])
      (by decide),
   (C9_data_invariants.2 ("研究生", (dictGet? SCENARIO_OPTIONAL_RULES "研究生").getD [])
      (by decide)
      ("前学期に3科目以上を履修（10単位程度）",
        [{ label := "これから研究生になる方", requirements := ["RULE"] }])
      (by decide)).2⟩

/-- C10: passing the empty string as the scholarship argument yields exactly
the result of passing None — Python `if scholarship:` is false for `""`, so
no placeholder is appended although `""` is not a key of SCHOLARSHIP_RULES.
Proved for all arguments, valid or not. -/
theorem C10_empty_scholarship_like_none (status scenario_label : String) :
    get_requirements status scenario_label (some "") =
      get_requirements status scenario_label none := by
  unfold get_requirements
  rcases h1 : dictGet? STATUS_RULES status with _ | scenarios
  · simp only [h1]
  · simp only [h1]
    rcases h2 : scenarios.find? (fun sc => sc.label == scenario_label) with _ | sc
    · simp only [h2]
    · simp only [h2]
      rfl
